import Mathlib

/-!
Shallow embedding of the scheduling core of `bot.py` (Telegram channel-posting
assistant).  Timestamps are modelled as natural numbers counting seconds
(UTC); SQL rows become Lean structures; the PostgreSQL and SQLite branches of
every `Database` method implement the same logic, which is embedded once.

The bookkeeping columns `created_at` and `updated_at`, which no behaviour in
the source depends on, are omitted from the row structures; every other
column of `users`, `channels` and `scheduled_posts` is modelled.

A storage-I/O failure (an exception raised by the connection pool) is
modelled by the `storage_failed` flag of `Database`; every method of the
Python class wraps its body in try/except, and on exception logs and returns
its fallback value (`None`, `[]` or `False`), which is exactly what the
embedded methods return when `storage_failed` is set.
-/

/- Tariff constants from `Config` (bot.py lines 48-52). -/
namespace Config

def TARIFF_CHANNELS_LIMIT : Nat := 2

def TARIFF_POSTS_PER_DAY : Nat := 8

end Config

/-- A row of the `users` table (bot.py lines 114-127). -/
structure User where
  id : Nat
  telegram_id : Nat
  username : Option String
  full_name : Option String
  channels_limit : Nat
  posts_per_day_limit : Nat
  subscribed : Bool
  subscription_until : Option Nat
deriving Repr, DecidableEq

/-- A row of the `channels` table (bot.py lines 130-140). -/
structure Channel where
  user_id : Nat
  channel_id : String
  channel_title : Option String
  is_active : Bool
deriving Repr, DecidableEq

/-- A row of the `scheduled_posts` table (bot.py lines 143-155). -/
structure ScheduledPost where
  id : Nat
  user_id : Nat
  channel_id : String
  message_text : String
  photo_id : Option String
  scheduled_time : Nat
  is_published : Bool
  published_at : Option Nat
deriving Repr, DecidableEq

/-- The persistent store (the `Database` class of bot.py).  `next_user_id`
models the SERIAL sequence for `users.id`; `storage_failed` models an I/O
failure raised by the backend, caught by the try/except of each method. -/
structure Database where
  users : List User
  channels : List Channel
  posts : List ScheduledPost
  next_user_id : Nat
  storage_failed : Bool
deriving Repr, DecidableEq

/-- The truthiness test `if username and user[...] != username` guarding the
handle resync in `get_or_create_user` (bot.py line 263): a non-empty new
username that differs from the stored one. -/
def usernameChanged (newName stored : Option String) : Bool :=
  match newName with
  | none => false
  | some s => s != "" && some s != stored

/-- Database.get_or_create_user (bot.py lines 240-301): look the user up by
telegram id; insert a fresh row with the default free-tier limits when
absent; resync the username when it changed (the returned dict is the row
fetched before the update, as in the source).  On a storage error the
except branch logs and returns None. -/
def Database.get_or_create_user (db : Database) (tid : Nat)
    (username full_name : Option String) : Database × Option User :=
  if db.storage_failed then (db, none)
  else
    match db.users.find? (fun u => u.telegram_id == tid) with
    | some u =>
      let users' :=
        if usernameChanged username u.username then
          db.users.map (fun v =>
            if v.id == u.id then { v with username := username } else v)
        else db.users
      ({ db with users := users' }, some u)
    | none =>
      let u : User :=
        { id := db.next_user_id, telegram_id := tid, username := username,
          full_name := full_name, channels_limit := 1, posts_per_day_limit := 3,
          subscribed := false, subscription_until := none }
      ({ db with users := db.users ++ [u], next_user_id := db.next_user_id + 1 },
       some u)

/-- Database.update_user_subscription (bot.py lines 303-345): one UPDATE of
the user row setting the subscription flag, the expiry (`now + days`), and
both tariff limits together.  The returned Bool mirrors
`result == "UPDATE 1"` (exactly one row matched). -/
def Database.update_user_subscription (db : Database) (now : Nat) (tid : Nat)
    (subscribed : Bool) (days : Nat) : Database × Bool :=
  if db.storage_failed then (db, false)
  else
    let users' := db.users.map (fun u =>
      if u.telegram_id == tid then
        { u with subscribed := subscribed,
                 subscription_until := some (now + days * 86400),
                 channels_limit := Config.TARIFF_CHANNELS_LIMIT,
                 posts_per_day_limit := Config.TARIFF_POSTS_PER_DAY }
      else u)
    ({ db with users := users' },
     db.users.countP (fun u => u.telegram_id == tid) == 1)

/-- Database.mark_post_published (bot.py lines 564-591): an unconditional
UPDATE setting `is_published = TRUE` and re-stamping
`published_at = CURRENT_TIMESTAMP` for the row with the given id; there is
no `is_published = FALSE` guard in the WHERE clause.  Returns True unless
the storage layer raised. -/
def Database.mark_post_published (db : Database) (now : Nat) (post_id : Nat) :
    Database × Bool :=
  if db.storage_failed then (db, false)
  else
    ({ db with posts := db.posts.map (fun p =>
        if p.id == post_id then
          { p with is_published := true, published_at := some now }
        else p) },
     true)

/-- Ordering relation used by `ORDER BY sp.scheduled_time`. -/
def postTimeLE (a b : ScheduledPost) : Prop :=
  a.scheduled_time ≤ b.scheduled_time

instance : DecidableRel postTimeLE := fun a b =>
  Nat.decLe a.scheduled_time b.scheduled_time

instance : IsTotal ScheduledPost postTimeLE :=
  ⟨fun a b => Nat.le_total a.scheduled_time b.scheduled_time⟩

instance : IsTrans ScheduledPost postTimeLE :=
  ⟨fun _ _ _ hab hbc => Nat.le_trans hab hbc⟩

/-- Database.get_posts_to_publish (bot.py lines 525-562): the duePosts query.
`scheduled_posts` JOIN `users` ON sp.user_id = u.id JOIN `channels` ON
sp.channel_id = c.channel_id AND c.user_id = u.id, WHERE the post is due
within the next 5 minutes, unpublished, and the channel is active; ORDER BY
scheduled_time.  On a storage error the except branch returns the empty
list. -/
def Database.get_posts_to_publish (db : Database) (now : Nat) :
    List ScheduledPost :=
  if db.storage_failed then []
  else
    let rows := db.posts.flatMap (fun p =>
      (db.users.filter (fun u => u.id == p.user_id)).flatMap (fun u =>
        (db.channels.filter (fun c =>
            c.channel_id == p.channel_id && c.user_id == u.id)).flatMap (fun c =>
          if p.scheduled_time ≤ now + 300 && !p.is_published && c.is_active
          then [p] else [])))
    List.insertionSort postTimeLE rows

/-- The row produced by the load query of `publish_scheduled_post`
(bot.py lines 1670-1679): the post joined with its owning user and the
matching channel row, exposing `u.telegram_id` and
`c.channel_id AS channel_ident`. -/
structure PostRow where
  post : ScheduledPost
  telegram_id : Nat
  channel_ident : String
deriving Repr, DecidableEq

/-- The row set of the load query of `publish_scheduled_post` (bot.py lines
1670-1679): `scheduled_posts` JOIN `users` JOIN `channels` (the same join
as duePosts but with NO `c.is_active` condition), WHERE `sp.id = post_id
AND sp.is_published = FALSE`. -/
def loadRows (db : Database) (post_id : Nat) : List PostRow :=
  db.posts.flatMap (fun p =>
    (db.users.filter (fun u => u.id == p.user_id)).flatMap (fun u =>
      (db.channels.filter (fun c =>
          c.channel_id == p.channel_id && c.user_id == u.id)).flatMap (fun c =>
        if p.id == post_id && !p.is_published
        then [⟨p, u.telegram_id, c.channel_id⟩] else [])))

/-- The `fetchrow` step of the load query: the first row of `loadRows`, if
any. -/
def loadPostRow (db : Database) (post_id : Nat) : Option PostRow :=
  (loadRows db post_id).head?

/-- The outbound transport (the `bot` object): whether the channel send
(`send_photo`/`send_message`) succeeds, and whether the best-effort user
notification (`notify_user`, which swallows its own failures) succeeds. -/
structure Transport where
  send_ok : Bool
  notify_ok : Bool
deriving Repr, DecidableEq

/-- The observable world around the store: successful outbound channel sends
(`(chat_id, text)` pairs), successful user notifications, and the count of
errors logged at the executor boundary. -/
structure World where
  db : Database
  sent : List (String × String)
  notified : List Nat
  errors : Nat
deriving Repr, DecidableEq

/-- The body of the try-block of `publish_scheduled_post` (bot.py lines
1666-1737), as an `Except`: a storage error while loading, or a transport
error while sending, raises (escapes the body); otherwise the steps are:
load with the `is_published = FALSE` filter (no row: warn and return),
send the photo or text message to `channel_ident`, call
`mark_post_published` (its Bool result is ignored, as in the source), and
best-effort notify the owning user when `telegram_id` is truthy. -/
def publishAttempt (tr : Transport) (now : Nat) (w : World) (post_id : Nat) :
    Except Unit World :=
  if w.db.storage_failed then .error ()
  else
    match loadPostRow w.db post_id with
    | none => .ok w
    | some row =>
      if tr.send_ok then
        let w1 := { w with
          sent := w.sent ++ [(row.channel_ident, row.post.message_text)] }
        let w2 := { w1 with db := (w1.db.mark_post_published now post_id).1 }
        if row.telegram_id != 0 && tr.notify_ok then
          .ok { w2 with notified := w2.notified ++ [row.telegram_id] }
        else .ok w2
      else .error ()

/-- publish_scheduled_post (bot.py lines 1664-1740): the Delivery Executor.
The whole body sits in one try/except, so no exception escapes this
boundary: a raise from the body is caught and logged
(`logger.error`, modelled by the `errors` counter). -/
def publish_scheduled_post (tr : Transport) (now : Nat) (w : World)
    (post_id : Nat) : World :=
  match publishAttempt tr now w post_id with
  | .ok w' => w'
  | .error _ => { w with errors := w.errors + 1 }

/-- A one-shot scheduler job `post_{id}` with its run date (apscheduler
`add_job(publish_scheduled_post, date, run_date, args=[post_id])`). -/
structure Job where
  id : Nat
  run_date : Nat
deriving Repr, DecidableEq

/-- Arming semantics of `scheduler.add_job` with the job id `post_<id>` and
`replace_existing = True`: a job whose id is already armed is replaced
(last write wins), otherwise the job is appended. -/
def addJobReplace (jobs : List Job) (j : Job) : List Job :=
  if jobs.any (fun k => k.id == j.id) then
    jobs.map (fun k => if k.id == j.id then j else k)
  else jobs ++ [j]

/-- The startup re-arm sweep of `on_startup` (bot.py lines 1777-1821):
select the unpublished posts with `scheduled_time > NOW()`, and arm a
one-shot job per row (the loop re-checks `scheduled_datetime >
datetime.utcnow()` before arming, as in the source). -/
def rebuild_jobs (db : Database) (now : Nat) : List Job :=
  (db.posts.filter (fun p => !p.is_published && now < p.scheduled_time)).foldl
    (fun jobs p =>
      if now < p.scheduled_time then addJobReplace jobs ⟨p.id, p.scheduled_time⟩
      else jobs)
    []

/-- Run the armed one-shot jobs in the given order: each firing invokes the
Delivery Executor with the post id of the job at its run date. -/
def runJobs (tr : Transport) (w : World) (jobs : List Job) : World :=
  jobs.foldl (fun w j => publish_scheduled_post tr j.run_date w j.id) w

/-- Advancing the clock past every armed due time: the one-shot timers fire
in run-date order, each invoking the Delivery Executor once. -/
def fire_all (tr : Transport) (w : World) (jobs : List Job) : World :=
  runJobs tr w
    (List.insertionSort (fun a b => a.run_date ≤ b.run_date) jobs)

/-- Outcome of the due-time validation in `process_post_time`. -/
inductive TimeValidation where
  | tooSoon
  | tooFarAhead
  | ok
deriving Repr, DecidableEq

/-- The due-time validation of `process_post_time` (bot.py lines 1223-1231):
reject when `scheduled_datetime < utcnow() + timedelta(minutes = 2)`
(too soon), then reject when `scheduled_datetime > utcnow() +
timedelta(days = 1)` (too far ahead), else accept. -/
def validate_scheduled_time (now sched : Nat) : TimeValidation :=
  if sched < now + 120 then .tooSoon
  else if now + 86400 < sched then .tooFarAhead
  else .ok

/-- The time-entry handler `process_post_time` (bot.py lines 1206-1256):
parse the input as a clock time `HH:MM` (`%H:%M`, so hour < 24 and
minute < 60), combine it with the UTC date of TODAY
(`datetime.combine(datetime.utcnow().date(), post_time)`), and run the
due-time validation.  The current instant is `(now_day, now_sec)` with
`now_sec` the seconds elapsed since UTC midnight; the result is the
`(day, seconds-of-day)` stored as the `scheduled_time` of the post, or `none`
when the input is rejected. -/
def process_post_time (now_day now_sec : Nat) (hh mm : Nat) :
    Option (Nat × Nat) :=
  if hh < 24 && mm < 60 then
    let sched_day := now_day
    let sched_sec := hh * 3600 + mm * 60
    match validate_scheduled_time (now_day * 86400 + now_sec)
        (sched_day * 86400 + sched_sec) with
    | .ok => some (sched_day, sched_sec)
    | _ => none
  else none

/-- A post has the join bindings the executor queries need: an owning user
row and a channel row matching `(channel_id, user_id)`.  Channel activity is
deliberately not part of this predicate, since the load query of the
executor does not test it. -/
def hasBinding (db : Database) (p : ScheduledPost) : Prop :=
  ∃ u ∈ db.users, u.id = p.user_id ∧
    ∃ c ∈ db.channels, c.channel_id = p.channel_id ∧ c.user_id = u.id

instance (db : Database) (p : ScheduledPost) : Decidable (hasBinding db p) :=
  List.decidableBEx _ db.users

/- Concrete sample data used by the closed witness and counterexample
theorems below. -/

/-- A transport on which both the channel send and the notification
succeed. -/
def sampleTransport : Transport := ⟨true, true⟩

/-- A transport on which the channel send raises. -/
def sampleTransportSendFail : Transport := ⟨false, true⟩

/-- A sample user (internal id 1, telegram id 100, free tier). -/
def sampleUser : User := ⟨1, 100, none, none, 1, 3, false, none⟩

/-- An active channel of `sampleUser`. -/
def sampleChannel : Channel := ⟨1, "ch", none, true⟩

/-- The same channel, soft-deactivated. -/
def sampleChannelInactive : Channel := ⟨1, "ch", none, false⟩

/-- An unpublished post (id 7) of `sampleUser` for channel `ch`, due at
t = 50. -/
def samplePost : ScheduledPost := ⟨7, 1, "ch", "hello", none, 50, false, none⟩

/-- A second unpublished post (id 8), due at t = 80. -/
def samplePost2 : ScheduledPost := ⟨8, 1, "ch", "bye", none, 80, false, none⟩

/-- A live store holding `sampleUser`, `sampleChannel` and `samplePost`. -/
def sampleDb : Database := ⟨[sampleUser], [sampleChannel], [samplePost], 2, false⟩

/-- Variant of `sampleDb` with the channel deactivated. -/
def sampleDbInactive : Database :=
  ⟨[sampleUser], [sampleChannelInactive], [samplePost], 2, false⟩

/-- A live store with two unpublished posts. -/
def sampleDb2 : Database :=
  ⟨[sampleUser], [sampleChannel], [samplePost, samplePost2], 2, false⟩

/-- Variant of `sampleDb` as seen when the storage backend is raising. -/
def sampleDbFail : Database := ⟨[sampleUser], [sampleChannel], [samplePost], 2, true⟩

/-- An empty live store (the normal no-rows case). -/
def sampleDbEmpty : Database := ⟨[], [], [], 1, false⟩

/-- Worlds wrapping the sample stores, with no sends yet. -/
def sampleWorld : World := ⟨sampleDb, [], [], 0⟩

/-- World around `sampleDbInactive`. -/
def sampleWorldInactive : World := ⟨sampleDbInactive, [], [], 0⟩

/-- World around `sampleDb2`. -/
def sampleWorld2 : World := ⟨sampleDb2, [], [], 0⟩

/-- Characterization of the rows returned by the executor load query. -/
theorem mem_loadRows {db : Database} {pid : Nat} {r : PostRow} :
    r ∈ loadRows db pid ↔
      ∃ p ∈ db.posts, ∃ u ∈ db.users, ∃ c ∈ db.channels,
        u.id = p.user_id ∧ c.channel_id = p.channel_id ∧ c.user_id = u.id ∧
        p.id = pid ∧ p.is_published = false ∧
        r = ⟨p, u.telegram_id, c.channel_id⟩ := by
  simp only [loadRows, List.mem_flatMap, List.mem_filter, Bool.and_eq_true,
    beq_iff_eq, Bool.not_eq_true']
  constructor
  · rintro ⟨p, hp, u, ⟨hu, huid⟩, c, ⟨hc, hcid, hcuid⟩, hr⟩
    by_cases hcond : p.id = pid ∧ p.is_published = false
    · rw [if_pos (by simp [hcond.1, hcond.2])] at hr
      simp only [List.mem_singleton] at hr
      exact ⟨p, hp, u, hu, c, hc, huid, hcid, hcuid, hcond.1, hcond.2, hr⟩
    · rw [if_neg (by simpa using fun h1 h2 => hcond ⟨h1, h2⟩)] at hr
      exact absurd hr (List.not_mem_nil r)
  · rintro ⟨p, hp, u, hu, c, hc, huid, hcid, hcuid, hpid, hpub, hr⟩
    refine ⟨p, hp, u, ⟨hu, huid⟩, c, ⟨hc, hcid, hcuid⟩, ?_⟩
    rw [if_pos (by simp [hpid, hpub])]
    simp [hr]

/-- When the post exists, is unpublished and has its join bindings, the
executor load query returns a row, and that row is for an unpublished post
with the requested id. -/
theorem loadPostRow_isSome {db : Database} {pid : Nat}
    (h : ∃ p ∈ db.posts, p.id = pid ∧ p.is_published = false ∧ hasBinding db p) :
    ∃ r, loadPostRow db pid = some r ∧ r.post ∈ db.posts ∧
      r.post.id = pid ∧ r.post.is_published = false := by
  obtain ⟨p, hp, hpid, hpub, u, hu, huid, c, hc, hcid, hcuid⟩ := h
  have hmem : (⟨p, u.telegram_id, c.channel_id⟩ : PostRow) ∈ loadRows db pid :=
    mem_loadRows.mpr ⟨p, hp, u, hu, c, hc, huid, hcid, hcuid, hpid, hpub, rfl⟩
  rcases hrows : loadRows db pid with _ | ⟨a, as⟩
  · rw [hrows] at hmem
    exact absurd hmem (List.not_mem_nil _)
  · have ha : a ∈ loadRows db pid := by rw [hrows]; exact List.mem_cons_self a as
    obtain ⟨q, hq, _, _, _, _, _, _, _, hqid, hqpub, hqr⟩ := mem_loadRows.mp ha
    exact ⟨a, by rw [loadPostRow, hrows]; rfl, by rw [hqr]; exact hq,
      by rw [hqr]; exact hqid, by rw [hqr]; exact hqpub⟩

/-- When every post carrying the requested id is already published, the
executor load query (which filters on `is_published = FALSE`) finds
nothing. -/
theorem loadPostRow_eq_none {db : Database} {pid : Nat}
    (h : ∀ p ∈ db.posts, p.id = pid → p.is_published = true) :
    loadPostRow db pid = none := by
  have : loadRows db pid = [] := by
    rw [List.eq_nil_iff_forall_not_mem]
    intro r hr
    obtain ⟨p, hp, _, _, _, _, _, _, _, hpid, hpub, _⟩ := mem_loadRows.mp hr
    rw [h p hp hpid] at hpub
    exact absurd hpub (by simp)
  rw [loadPostRow, this]
  rfl

/-- The method `mark_post_published` touches only `scheduled_posts`: users,
channels, the id sequence and the failure flag are untouched (on the error
path the whole store is untouched). -/
theorem mark_frame (db : Database) (t pid : Nat) :
    (db.mark_post_published t pid).1.users = db.users ∧
    (db.mark_post_published t pid).1.channels = db.channels ∧
    (db.mark_post_published t pid).1.next_user_id = db.next_user_id ∧
    (db.mark_post_published t pid).1.storage_failed = db.storage_failed := by
  unfold Database.mark_post_published
  split <;> exact ⟨rfl, rfl, rfl, rfl⟩

/-- On a live store, `mark_post_published` rewrites the posts list with the
UPDATE row function. -/
theorem mark_posts_eq {db : Database} (h : db.storage_failed = false)
    (t pid : Nat) :
    (db.mark_post_published t pid).1.posts = db.posts.map (fun p =>
      if p.id == pid then { p with is_published := true, published_at := some t }
      else p) := by
  unfold Database.mark_post_published
  rw [h]
  rfl

/-- After `mark_post_published`, every row carrying the marked id is
published. -/
theorem mark_publishes {db : Database} (h : db.storage_failed = false)
    (t pid : Nat) :
    ∀ q ∈ (db.mark_post_published t pid).1.posts, q.id = pid →
      q.is_published = true := by
  rw [mark_posts_eq h]
  intro q hq hqid
  obtain ⟨p, hp, hfp⟩ := List.mem_map.mp hq
  by_cases hcase : p.id = pid
  · rw [← hfp, if_pos (by simp [hcase])]
  · rw [← hfp, if_neg (by simp [hcase])] at hqid ⊢
    exact absurd hqid hcase

/-- Rows with a different id are left exactly as they were by
`mark_post_published`. -/
theorem mark_preserves_other {db : Database} (h : db.storage_failed = false)
    (t pid : Nat) :
    ∀ p ∈ db.posts, p.id ≠ pid → p ∈ (db.mark_post_published t pid).1.posts := by
  rw [mark_posts_eq h]
  intro p hp hne
  have : (fun q : ScheduledPost =>
      if q.id == pid then { q with is_published := true, published_at := some t }
      else q) p = p := by
    simp [hne]
  rw [← this]
  exact List.mem_map_of_mem _ hp

/-- The method `mark_post_published` keeps the id column of every row. -/
theorem mark_id_map {db : Database} (t pid : Nat) :
    (db.mark_post_published t pid).1.posts.map ScheduledPost.id =
      db.posts.map ScheduledPost.id := by
  unfold Database.mark_post_published
  split
  · rfl
  · simp only [List.map_map]
    refine List.map_congr_left (fun p _ => ?_)
    by_cases hcase : p.id = pid
    · simp [Function.comp, hcase]
    · simp [Function.comp, hcase]

/-- The method `mark_post_published` never un-publishes a row: it keeps
its flag. -/
theorem mark_keeps_published {db : Database} (t pid i : Nat)
    (h : ∀ q ∈ db.posts, q.id = i → q.is_published = true) :
    ∀ q ∈ (db.mark_post_published t pid).1.posts, q.id = i →
      q.is_published = true := by
  unfold Database.mark_post_published
  split
  · exact h
  · intro q hq hqid
    obtain ⟨p, hp, hfp⟩ := List.mem_map.mp hq
    by_cases hcase : p.id = pid
    · rw [← hfp, if_pos (by simp [hcase])]
    · rw [← hfp, if_neg (by simp [hcase])] at hqid ⊢
      exact h p hp hqid

/-- Successful delivery: on a live store, with a working transport and a row
found by the load query, `publish_scheduled_post` appends exactly one
outbound send, commits via `mark_post_published`, best-effort notifies, and
logs no error. -/
theorem publish_success {tr : Transport} {w : World} {pid : Nat} {row : PostRow}
    (hs : w.db.storage_failed = false) (hsend : tr.send_ok = true)
    (hload : loadPostRow w.db pid = some row) (t : Nat) :
    publish_scheduled_post tr t w pid =
      { db := (w.db.mark_post_published t pid).1,
        sent := w.sent ++ [(row.channel_ident, row.post.message_text)],
        notified := if row.telegram_id != 0 && tr.notify_ok
          then w.notified ++ [row.telegram_id] else w.notified,
        errors := w.errors } := by
  unfold publish_scheduled_post publishAttempt
  rw [hs, hload, hsend]
  simp only [Bool.false_eq_true, if_false, eq_self_iff_true, if_true]
  by_cases hn : (row.telegram_id != 0 && tr.notify_ok) = true
  · rw [if_pos hn, if_pos hn]
  · rw [if_neg hn, if_neg hn]

/-- No-op path of the Delivery Executor: on a live store, when the load
query (filtered on `is_published = FALSE`) finds nothing, the world is
returned unchanged. -/
theorem publish_noop {w : World} {pid : Nat}
    (hs : w.db.storage_failed = false) (hload : loadPostRow w.db pid = none)
    (tr : Transport) (t : Nat) :
    publish_scheduled_post tr t w pid = w := by
  unfold publish_scheduled_post publishAttempt
  rw [hs, hload]
  rfl

/-- Failure path of the Delivery Executor: when the outbound send raises,
the exception is caught at the boundary, one error is logged, and nothing
else changes - in particular the store is untouched, so the post stays
unpublished. -/
theorem publish_send_failed {tr : Transport} {w : World} {pid : Nat}
    {row : PostRow}
    (hs : w.db.storage_failed = false) (hsend : tr.send_ok = false)
    (hload : loadPostRow w.db pid = some row) (t : Nat) :
    publish_scheduled_post tr t w pid = { w with errors := w.errors + 1 } := by
  unfold publish_scheduled_post publishAttempt
  rw [hs, hload, hsend]
  rfl

/-- Whatever path the Delivery Executor takes, the resulting store is either
untouched or the result of `mark_post_published` on the invoked id. -/
theorem publish_db_cases (tr : Transport) (t : Nat) (w : World) (pid : Nat) :
    (publish_scheduled_post tr t w pid).db = w.db ∨
    (publish_scheduled_post tr t w pid).db = (w.db.mark_post_published t pid).1 := by
  by_cases hs : w.db.storage_failed = true
  · unfold publish_scheduled_post publishAttempt
    rw [if_pos hs]
    exact Or.inl rfl
  · have hs' : w.db.storage_failed = false := by simpa using hs
    rcases hload : loadPostRow w.db pid with _ | row
    · rw [publish_noop hs' hload]
      exact Or.inl rfl
    · by_cases hsend : tr.send_ok = true
      · rw [publish_success hs' hsend hload]
        exact Or.inr rfl
      · have hsend' : tr.send_ok = false := by simpa using hsend
        rw [publish_send_failed hs' hsend' hload]
        exact Or.inl rfl

/-- The Delivery Executor never un-publishes a row. -/
theorem publish_keeps_published (tr : Transport) (t : Nat) (w : World)
    (pid i : Nat)
    (h : ∀ q ∈ w.db.posts, q.id = i → q.is_published = true) :
    ∀ q ∈ (publish_scheduled_post tr t w pid).db.posts, q.id = i →
      q.is_published = true := by
  rcases publish_db_cases tr t w pid with hdb | hdb
  · rw [hdb]; exact h
  · rw [hdb]; exact mark_keeps_published t pid i h

/-- The Delivery Executor touches only the posts table of the store. -/
theorem publish_frame (tr : Transport) (t : Nat) (w : World) (pid : Nat) :
    (publish_scheduled_post tr t w pid).db.users = w.db.users ∧
    (publish_scheduled_post tr t w pid).db.channels = w.db.channels ∧
    (publish_scheduled_post tr t w pid).db.storage_failed = w.db.storage_failed ∧
    (publish_scheduled_post tr t w pid).db.posts.map ScheduledPost.id =
      w.db.posts.map ScheduledPost.id := by
  rcases publish_db_cases tr t w pid with hdb | hdb <;> rw [hdb]
  · exact ⟨rfl, rfl, rfl, rfl⟩
  · obtain ⟨h1, h2, _, h4⟩ := mark_frame w.db t pid
    exact ⟨h1, h2, h4, mark_id_map t pid⟩

/-- Membership in the duePosts query result: exactly the posts that are
unpublished, due within the 5-minute lookahead, and whose channel binding
(owner join included) is active. -/
theorem mem_get_posts_to_publish {db : Database} {now : Nat}
    {p : ScheduledPost} (hs : db.storage_failed = false) :
    p ∈ db.get_posts_to_publish now ↔
      p ∈ db.posts ∧ p.is_published = false ∧ p.scheduled_time ≤ now + 300 ∧
        ∃ u ∈ db.users, u.id = p.user_id ∧
          ∃ c ∈ db.channels, c.channel_id = p.channel_id ∧ c.user_id = u.id ∧
            c.is_active = true := by
  unfold Database.get_posts_to_publish
  rw [hs]
  simp only [Bool.false_eq_true, if_false, List.mem_insertionSort,
    List.mem_flatMap, List.mem_filter, Bool.and_eq_true, beq_iff_eq,
    Bool.not_eq_true', decide_eq_true_eq]
  constructor
  · rintro ⟨p0, hp0, u, ⟨hu, huid⟩, c, ⟨hc, hcid, hcuid⟩, hmem⟩
    by_cases hcond :
        (p0.scheduled_time ≤ now + 300 ∧ p0.is_published = false) ∧
          c.is_active = true
    · rw [if_pos hcond] at hmem
      simp only [List.mem_singleton] at hmem
      subst hmem
      exact ⟨hp0, hcond.1.2, hcond.1.1,
        u, hu, huid, c, hc, hcid, hcuid, hcond.2⟩
    · rw [if_neg hcond] at hmem
      exact absurd hmem (List.not_mem_nil p)
  · rintro ⟨hp, hpub, htime, u, hu, huid, c, hc, hcid, hcuid, hact⟩
    refine ⟨p, hp, u, ⟨hu, huid⟩, c, ⟨hc, hcid, hcuid⟩, ?_⟩
    rw [if_pos ⟨⟨htime, hpub⟩, hact⟩]
    exact List.mem_singleton.mpr rfl

/-- The duePosts query result is sorted by due time ascending. -/
theorem sorted_get_posts_to_publish (db : Database) (now : Nat) :
    List.Sorted postTimeLE (db.get_posts_to_publish now) := by
  unfold Database.get_posts_to_publish
  split
  · exact List.sorted_nil
  · exact List.sorted_insertionSort postTimeLE _

/-- Running any batch of jobs never un-publishes a row. -/
theorem runJobs_keeps_published (tr : Transport) (i : Nat) :
    ∀ (jobs : List Job) (w : World),
    (∀ q ∈ w.db.posts, q.id = i → q.is_published = true) →
    ∀ q ∈ (runJobs tr w jobs).db.posts, q.id = i → q.is_published = true := by
  intro jobs
  induction jobs with
  | nil => intro w h; exact h
  | cons j rest ih =>
    intro w h
    exact ih (publish_scheduled_post tr j.run_date w j.id)
      (publish_keeps_published tr j.run_date w j.id i h)

/-- Core delivery lemma: running a batch of jobs with pairwise-distinct ids,
each targeting an unpublished, fully-bound post on a live store with a
working transport, performs exactly one outbound send per job and leaves
every targeted post published; the rest of the store is untouched. -/
theorem runJobs_delivers (tr : Transport) (jobs : List Job) :
    ∀ (w : World),
    w.db.storage_failed = false →
    tr.send_ok = true →
    (jobs.map Job.id).Nodup →
    (∀ j ∈ jobs, ∃ p ∈ w.db.posts, p.id = j.id ∧ p.is_published = false ∧
        hasBinding w.db p) →
    (runJobs tr w jobs).sent.length = w.sent.length + jobs.length ∧
    (runJobs tr w jobs).db.storage_failed = false ∧
    (runJobs tr w jobs).db.users = w.db.users ∧
    (runJobs tr w jobs).db.channels = w.db.channels ∧
    (runJobs tr w jobs).db.posts.map ScheduledPost.id =
      w.db.posts.map ScheduledPost.id ∧
    (∀ q ∈ (runJobs tr w jobs).db.posts, q.id ∈ jobs.map Job.id →
      q.is_published = true) := by
  induction jobs with
  | nil =>
    intro w hs _ _ _
    refine ⟨rfl, hs, rfl, rfl, rfl, ?_⟩
    intro q _ hq
    exact absurd hq (List.not_mem_nil q.id)
  | cons j rest ih =>
    intro w hs hsend hnodup hposts
    obtain ⟨row, hload, _, _, _⟩ :=
      loadPostRow_isSome (hposts j (List.mem_cons_self j rest))
    have hpub := publish_success hs hsend hload j.run_date
    have hrun : runJobs tr w (j :: rest) =
        runJobs tr (publish_scheduled_post tr j.run_date w j.id) rest := rfl
    have hw1db : (publish_scheduled_post tr j.run_date w j.id).db =
        (w.db.mark_post_published j.run_date j.id).1 := by rw [hpub]
    have hw1sent : (publish_scheduled_post tr j.run_date w j.id).sent.length =
        w.sent.length + 1 := by rw [hpub]; simp
    obtain ⟨hmu, hmc, _, hmsf⟩ := mark_frame w.db j.run_date j.id
    have hw1s : (publish_scheduled_post tr j.run_date w j.id).db.storage_failed
        = false := by rw [hw1db, hmsf, hs]
    have hw1u : (publish_scheduled_post tr j.run_date w j.id).db.users =
        w.db.users := by rw [hw1db, hmu]
    have hw1c : (publish_scheduled_post tr j.run_date w j.id).db.channels =
        w.db.channels := by rw [hw1db, hmc]
    have hw1ids : (publish_scheduled_post tr j.run_date w j.id).db.posts.map
        ScheduledPost.id = w.db.posts.map ScheduledPost.id := by
      rw [hw1db, mark_id_map]
    have hnodup' : j.id ∉ rest.map Job.id ∧ (rest.map Job.id).Nodup := by
      rw [List.map_cons, List.nodup_cons] at hnodup
      exact hnodup
    have hposts' : ∀ k ∈ rest,
        ∃ p ∈ (publish_scheduled_post tr j.run_date w j.id).db.posts,
          p.id = k.id ∧ p.is_published = false ∧
          hasBinding (publish_scheduled_post tr j.run_date w j.id).db p := by
      intro k hk
      obtain ⟨p, hp, hkid, hunpub, hbind⟩ :=
        hposts k (List.mem_cons_of_mem j hk)
      have hneq : p.id ≠ j.id := by
        rw [hkid]
        intro e
        exact hnodup'.1 (e ▸ List.mem_map_of_mem Job.id hk)
      refine ⟨p, ?_, hkid, hunpub, ?_⟩
      · rw [hw1db]
        exact mark_preserves_other hs j.run_date j.id p hp hneq
      · obtain ⟨u, hu, huid, c, hc, hcid, hcuid⟩ := hbind
        exact ⟨u, hw1u ▸ hu, huid, c, hw1c ▸ hc, hcid, hcuid⟩
    obtain ⟨ihsent, ihs, ihu, ihc, ihids, ihpub⟩ :=
      ih (publish_scheduled_post tr j.run_date w j.id) hw1s hsend hnodup'.2
        hposts'
    rw [hrun]
    refine ⟨?_, ihs, ihu.trans hw1u, ihc.trans hw1c, ihids.trans hw1ids, ?_⟩
    · rw [ihsent, hw1sent, List.length_cons]
      omega
    · intro q hq hqid
      simp only [List.map_cons, List.mem_cons] at hqid
      rcases hqid with hqid | hqid
      · have hmarked : ∀ q0 ∈
            (publish_scheduled_post tr j.run_date w j.id).db.posts,
            q0.id = j.id → q0.is_published = true := by
          rw [hw1db]
          exact mark_publishes hs j.run_date j.id
        exact runJobs_keeps_published tr j.id rest _ hmarked q hq hqid
      · exact ihpub q hq hqid

/-- The `replace_existing` arming degenerates to an append when the job id
is fresh. -/
theorem addJobReplace_eq_append {jobs : List Job} {j : Job}
    (h : ∀ k ∈ jobs, k.id ≠ j.id) : addJobReplace jobs j = jobs ++ [j] := by
  unfold addJobReplace
  rw [if_neg ?_]
  simp only [List.any_eq_true, beq_iff_eq, not_exists]
  intro k hk
  exact h k hk.1 hk.2

/-- The startup re-arm fold, on rows with pairwise-fresh ids that all lie in
the future, arms exactly one job per row, in row order. -/
theorem foldl_addJobReplace (now : Nat) :
    ∀ (l : List ScheduledPost) (acc : List Job),
    (acc.map Job.id ++ l.map ScheduledPost.id).Nodup →
    (∀ p ∈ l, now < p.scheduled_time) →
    l.foldl (fun jobs p =>
        if now < p.scheduled_time then addJobReplace jobs ⟨p.id, p.scheduled_time⟩
        else jobs) acc
      = acc ++ l.map (fun p => Job.mk p.id p.scheduled_time) := by
  intro l
  induction l with
  | nil => intro acc _ _; simp
  | cons p rest ih =>
    intro acc hnodup hfut
    have hstep : (if now < p.scheduled_time
        then addJobReplace acc ⟨p.id, p.scheduled_time⟩ else acc)
        = acc ++ [Job.mk p.id p.scheduled_time] := by
      rw [if_pos (hfut p (List.mem_cons_self p rest))]
      refine addJobReplace_eq_append ?_
      intro k hk he
      have he' : k.id = p.id := he
      have h1 : p.id ∈ acc.map Job.id := by
        rw [← he']
        exact List.mem_map_of_mem Job.id hk
      have h2 : p.id ∈ (p :: rest).map ScheduledPost.id := by
        simp
      exact (List.nodup_append.mp hnodup).2.2 h1 h2
    have hnodup2 : ((acc ++ [Job.mk p.id p.scheduled_time]).map Job.id ++
        rest.map ScheduledPost.id).Nodup := by
      have heq : (acc ++ [Job.mk p.id p.scheduled_time]).map Job.id ++
          rest.map ScheduledPost.id
          = acc.map Job.id ++ (p.id :: rest.map ScheduledPost.id) := by
        rw [List.map_append, List.append_assoc]
        rfl
      rw [heq]
      exact hnodup
    have hrest : ∀ q ∈ rest, now < q.scheduled_time :=
      fun q hq => hfut q (List.mem_cons_of_mem p hq)
    calc (p :: rest).foldl (fun jobs q =>
          if now < q.scheduled_time
          then addJobReplace jobs ⟨q.id, q.scheduled_time⟩ else jobs) acc
        = rest.foldl (fun jobs q =>
            if now < q.scheduled_time
            then addJobReplace jobs ⟨q.id, q.scheduled_time⟩ else jobs)
            (acc ++ [Job.mk p.id p.scheduled_time]) := by
          rw [List.foldl_cons, hstep]
      _ = acc ++ [Job.mk p.id p.scheduled_time] ++
            rest.map (fun q => Job.mk q.id q.scheduled_time) :=
          ih (acc ++ [Job.mk p.id p.scheduled_time]) hnodup2 hrest
      _ = acc ++ (p :: rest).map (fun q => Job.mk q.id q.scheduled_time) := by
          simp

/-- When every persisted post is unpublished with a future due time and post
ids are pairwise distinct, the startup rebuild arms exactly one one-shot
timer per post, keyed by post id at its due time. -/
theorem rebuild_eq_map {db : Database} {now : Nat}
    (hnodup : (db.posts.map ScheduledPost.id).Nodup)
    (hall : ∀ p ∈ db.posts, p.is_published = false ∧ now < p.scheduled_time) :
    rebuild_jobs db now = db.posts.map (fun p => Job.mk p.id p.scheduled_time) := by
  unfold rebuild_jobs
  have hfilter : db.posts.filter
      (fun p => !p.is_published && now < p.scheduled_time) = db.posts := by
    rw [List.filter_eq_self]
    intro p hp
    simp [(hall p hp).1, (hall p hp).2]
  rw [hfilter]
  have hfold := foldl_addJobReplace now db.posts []
  simp only [List.map_nil, List.nil_append] at hfold
  exact hfold hnodup (fun p hp => (hall p hp).2)

/-- C1: invoking the Delivery Executor (`publish_scheduled_post`) twice for
the same post identifier performs exactly one outbound send, flips the
published flag false-to-true exactly once, and the second invocation - whose
load query filters on `is_published = FALSE` - finds nothing and returns as
a no-op (the resulting world equals the world after the first
invocation). -/
theorem claim_c1_executor_double_invocation_at_most_once
    (tr : Transport) (t1 t2 : Nat) (w : World) (pid : Nat)
    (hs : w.db.storage_failed = false)
    (hsend : tr.send_ok = true)
    (hpost : ∃ p ∈ w.db.posts, p.id = pid ∧ p.is_published = false ∧
      hasBinding w.db p) :
    (publish_scheduled_post tr t2
        (publish_scheduled_post tr t1 w pid) pid).sent.length
      = w.sent.length + 1 ∧
    (∀ q ∈ (publish_scheduled_post tr t1 w pid).db.posts, q.id = pid →
      q.is_published = true) ∧
    loadPostRow (publish_scheduled_post tr t1 w pid).db pid = none ∧
    publish_scheduled_post tr t2 (publish_scheduled_post tr t1 w pid) pid
      = publish_scheduled_post tr t1 w pid := by
  obtain ⟨row, hload, _, _, _⟩ := loadPostRow_isSome hpost
  have hpub := publish_success hs hsend hload t1
  have hw1db : (publish_scheduled_post tr t1 w pid).db =
      (w.db.mark_post_published t1 pid).1 := by rw [hpub]
  have hflag : ∀ q ∈ (publish_scheduled_post tr t1 w pid).db.posts,
      q.id = pid → q.is_published = true := by
    rw [hw1db]
    exact mark_publishes hs t1 pid
  have hs1 : (publish_scheduled_post tr t1 w pid).db.storage_failed = false := by
    rw [hw1db, (mark_frame w.db t1 pid).2.2.2, hs]
  have hnone : loadPostRow (publish_scheduled_post tr t1 w pid).db pid = none :=
    loadPostRow_eq_none hflag
  have hnoop := publish_noop hs1 hnone tr t2
  refine ⟨?_, hflag, hnone, hnoop⟩
  rw [hnoop, hpub]
  simp

/-- Witness for C1 on concrete data: one user, one active channel, one
unpublished post with id 7, invoked at t = 60 and t = 61. -/
theorem claim_c1_witness :
    sampleWorld.db.storage_failed = false ∧
    sampleTransport.send_ok = true ∧
    (∃ p ∈ sampleWorld.db.posts, p.id = 7 ∧ p.is_published = false ∧
      hasBinding sampleWorld.db p) ∧
    ((publish_scheduled_post sampleTransport 61
        (publish_scheduled_post sampleTransport 60 sampleWorld 7) 7).sent.length
      = sampleWorld.sent.length + 1 ∧
    (∀ q ∈ (publish_scheduled_post sampleTransport 60 sampleWorld 7).db.posts,
      q.id = 7 → q.is_published = true) ∧
    loadPostRow (publish_scheduled_post sampleTransport 60 sampleWorld 7).db 7
      = none ∧
    publish_scheduled_post sampleTransport 61
        (publish_scheduled_post sampleTransport 60 sampleWorld 7) 7
      = publish_scheduled_post sampleTransport 60 sampleWorld 7) :=
  ⟨rfl, rfl, by decide,
    claim_c1_executor_double_invocation_at_most_once sampleTransport 60 61
      sampleWorld 7 rfl rfl (by decide)⟩

/-- C7: when the outbound send raises, the exception is caught at the
Delivery Executor boundary and only logged (`errors` grows by one); the
store - and with it the unpublished flag of the post - the send log and the
notification log are untouched, so the post remains unpublished and no
exception escapes (the executor is a total function returning a world). -/
theorem claim_c7_transport_failure_contained
    (tr : Transport) (t : Nat) (w : World) (pid : Nat)
    (hs : w.db.storage_failed = false)
    (hsend : tr.send_ok = false)
    (hpost : ∃ p ∈ w.db.posts, p.id = pid ∧ p.is_published = false ∧
      hasBinding w.db p) :
    publish_scheduled_post tr t w pid = { w with errors := w.errors + 1 } := by
  obtain ⟨row, hload, _, _, _⟩ := loadPostRow_isSome hpost
  exact publish_send_failed hs hsend hload t

/-- Witness for C7 on concrete data: the send fails at t = 60; only the
error count changes. -/
theorem claim_c7_witness :
    sampleWorld.db.storage_failed = false ∧
    sampleTransportSendFail.send_ok = false ∧
    (∃ p ∈ sampleWorld.db.posts, p.id = 7 ∧ p.is_published = false ∧
      hasBinding sampleWorld.db p) ∧
    publish_scheduled_post sampleTransportSendFail 60 sampleWorld 7
      = { sampleWorld with errors := sampleWorld.errors + 1 } :=
  ⟨rfl, rfl, by decide,
    claim_c7_transport_failure_contained sampleTransportSendFail 60
      sampleWorld 7 rfl rfl (by decide)⟩

/-- C2 counterexample: a due (t = 50 ≤ 100 + 300), unpublished post whose
only channel row is deactivated.  The Delivery Executor - whose load query
has no `is_active` condition - sends it anyway (one outbound send) and marks
it published; and even before that, the post does not appear in the duePosts
scan at all, because `get_posts_to_publish` filters on
`c.is_active = TRUE`. -/
theorem claim_c2_counterexample :
    sampleChannelInactive.is_active = false ∧
    samplePost.is_published = false ∧
    samplePost.scheduled_time ≤ 100 + 300 ∧
    (publish_scheduled_post sampleTransport 100 sampleWorldInactive 7).sent
      = [("ch", "hello")] ∧
    (∀ q ∈ (publish_scheduled_post sampleTransport 100
        sampleWorldInactive 7).db.posts, q.is_published = true) ∧
    sampleDbInactive.get_posts_to_publish 100 = [] := by
  decide

/-- C2 amended: processing a due post whose destination channel is
deactivated, the Delivery Executor (which never tests `is_active`) still
sends and still marks the post published on transport success; and such a
post, far from continuing to appear in duePosts scans, is excluded from
`get_posts_to_publish` entirely, because that query keeps only active
channels. -/
theorem claim_c2_amended_inactive_channel_sent_and_excluded
    (tr : Transport) (t : Nat) (w : World) (pid : Nat) (p : ScheduledPost)
    (u : User) (c : Channel)
    (hs : w.db.storage_failed = false)
    (hsend : tr.send_ok = true)
    (hp : p ∈ w.db.posts) (hpid : p.id = pid) (hunpub : p.is_published = false)
    (hu : u ∈ w.db.users) (huid : u.id = p.user_id)
    (hc : c ∈ w.db.channels) (hcid : c.channel_id = p.channel_id)
    (hcuid : c.user_id = u.id)
    (hinact : ∀ c0 ∈ w.db.channels, c0.channel_id = p.channel_id →
      c0.is_active = false) :
    (publish_scheduled_post tr t w pid).sent.length = w.sent.length + 1 ∧
    (∀ q ∈ (publish_scheduled_post tr t w pid).db.posts, q.id = pid →
      q.is_published = true) ∧
    (∀ now, p ∉ w.db.get_posts_to_publish now) := by
  have hpost : ∃ p0 ∈ w.db.posts, p0.id = pid ∧ p0.is_published = false ∧
      hasBinding w.db p0 :=
    ⟨p, hp, hpid, hunpub, u, hu, huid, c, hc, hcid, hcuid⟩
  obtain ⟨row, hload, _, _, _⟩ := loadPostRow_isSome hpost
  have hpub := publish_success hs hsend hload t
  refine ⟨?_, ?_, ?_⟩
  · rw [hpub]
    simp
  · have hw1db : (publish_scheduled_post tr t w pid).db =
        (w.db.mark_post_published t pid).1 := by rw [hpub]
    rw [hw1db]
    exact mark_publishes hs t pid
  · intro now hmem
    obtain ⟨_, _, _, u0, _, _, c0, hc0, hcid0, _, hact0⟩ :=
      (mem_get_posts_to_publish hs).mp hmem
    rw [hinact c0 hc0 hcid0] at hact0
    exact absurd hact0 (by simp)

/-- Witness for the amended C2 on the concrete inactive-channel store. -/
theorem claim_c2_amended_witness :
    sampleWorldInactive.db.storage_failed = false ∧
    sampleTransport.send_ok = true ∧
    samplePost ∈ sampleWorldInactive.db.posts ∧
    samplePost.id = 7 ∧
    samplePost.is_published = false ∧
    sampleUser ∈ sampleWorldInactive.db.users ∧
    sampleUser.id = samplePost.user_id ∧
    sampleChannelInactive ∈ sampleWorldInactive.db.channels ∧
    sampleChannelInactive.channel_id = samplePost.channel_id ∧
    sampleChannelInactive.user_id = sampleUser.id ∧
    (∀ c0 ∈ sampleWorldInactive.db.channels,
      c0.channel_id = samplePost.channel_id → c0.is_active = false) ∧
    ((publish_scheduled_post sampleTransport 100 sampleWorldInactive 7).sent.length
        = sampleWorldInactive.sent.length + 1 ∧
      (∀ q ∈ (publish_scheduled_post sampleTransport 100
          sampleWorldInactive 7).db.posts, q.id = 7 → q.is_published = true) ∧
      (∀ now, samplePost ∉ sampleWorldInactive.db.get_posts_to_publish now)) :=
  ⟨rfl, rfl, by decide, rfl, rfl, by decide, rfl, by decide, rfl, rfl,
    by decide,
    claim_c2_amended_inactive_channel_sent_and_excluded sampleTransport 100
      sampleWorldInactive 7 samplePost sampleUser sampleChannelInactive
      rfl rfl (by decide) rfl rfl (by decide) rfl (by decide) rfl rfl
      (by decide)⟩

/-- C3 counterexample: `mark_post_published` has no `is_published = FALSE`
guard, so calling it at t = 10 and again at t = 20 re-stamps `published_at`
from 10 to 20 - a duplicate audit side effect, not a single false-to-true
transition stamp. -/
theorem claim_c3_counterexample :
    (sampleDb.mark_post_published 10 7).1.posts
      = [{ samplePost with is_published := true, published_at := some 10 }] ∧
    ((sampleDb.mark_post_published 10 7).1.mark_post_published 20 7).1.posts
      = [{ samplePost with is_published := true, published_at := some 20 }] := by
  decide

/-- C3 amended: on a live store, calling `mark_post_published` twice never
errors (both calls return True) and is idempotent on the `is_published`
flag (the flag column is identical after one and after two calls), but each
call re-stamps `published_at` with its own current timestamp, so after the
second call every row with the marked id carries the second timestamp. -/
theorem claim_c3_amended_mark_idempotent_flag_restamps_timestamp
    (db : Database) (t1 t2 pid : Nat)
    (hs : db.storage_failed = false) :
    (db.mark_post_published t1 pid).2 = true ∧
    ((db.mark_post_published t1 pid).1.mark_post_published t2 pid).2 = true ∧
    (∀ q ∈ ((db.mark_post_published t1 pid).1.mark_post_published t2 pid).1.posts,
      q.id = pid → q.is_published = true ∧ q.published_at = some t2) ∧
    ((db.mark_post_published t1 pid).1.mark_post_published t2 pid).1.posts.map
        ScheduledPost.is_published
      = (db.mark_post_published t1 pid).1.posts.map ScheduledPost.is_published := by
  have hs1 : (db.mark_post_published t1 pid).1.storage_failed = false := by
    rw [(mark_frame db t1 pid).2.2.2, hs]
  have key : ∀ d : Database, d.storage_failed = false →
      ∀ t p0, (d.mark_post_published t p0).2 = true := by
    intro d hd t p0
    simp [Database.mark_post_published, hd]
  refine ⟨key db hs t1 pid, key _ hs1 t2 pid, ?_, ?_⟩
  · rw [mark_posts_eq hs1]
    intro q hq hqid
    obtain ⟨p, hp, hfp⟩ := List.mem_map.mp hq
    by_cases hcase : p.id = pid
    · rw [← hfp, if_pos (by simp [hcase])]
      exact ⟨rfl, rfl⟩
    · rw [← hfp, if_neg (by simp [hcase])] at hqid
      have hpub1 := mark_publishes hs t1 pid p hp hqid
      rw [← hfp, if_neg (by simp [hcase])]
      exact ⟨hpub1, absurd hqid hcase⟩
  · rw [mark_posts_eq hs1]
    rw [List.map_map]
    refine List.map_congr_left (fun q hq => ?_)
    by_cases hcase : q.id = pid
    · have := mark_publishes hs t1 pid q hq hcase
      simp [Function.comp, hcase, this]
    · simp [Function.comp, hcase]

/-- Witness for the amended C3: marking post 7 at t = 10 then t = 20. -/
theorem claim_c3_amended_witness :
    sampleDb.storage_failed = false ∧
    ((sampleDb.mark_post_published 10 7).2 = true ∧
      ((sampleDb.mark_post_published 10 7).1.mark_post_published 20 7).2 = true ∧
      (∀ q ∈ ((sampleDb.mark_post_published 10 7).1.mark_post_published
          20 7).1.posts, q.id = 7 → q.is_published = true ∧
          q.published_at = some 20) ∧
      ((sampleDb.mark_post_published 10 7).1.mark_post_published 20 7).1.posts.map
          ScheduledPost.is_published
        = (sampleDb.mark_post_published 10 7).1.posts.map
            ScheduledPost.is_published) :=
  ⟨rfl, claim_c3_amended_mark_idempotent_flag_restamps_timestamp sampleDb
    10 20 7 rfl⟩

/-- C4: the creation-time due-time validation rejects now + 1 minute as too
soon, accepts now + 2 minutes, rejects now + 25 hours as too far ahead, and
accepts now + 23 hours: the minimum lead is 2 minutes and the horizon is
24 hours from creation. -/
theorem claim_c4_boundary_validation (now : Nat) :
    validate_scheduled_time now (now + 60) = TimeValidation.tooSoon ∧
    validate_scheduled_time now (now + 120) = TimeValidation.ok ∧
    validate_scheduled_time now (now + 90000) = TimeValidation.tooFarAhead ∧
    validate_scheduled_time now (now + 82800) = TimeValidation.ok := by
  refine ⟨?_, ?_, ?_, ?_⟩ <;> unfold validate_scheduled_time
  · rw [if_pos (by omega)]
  · rw [if_neg (by omega), if_neg (by omega)]
  · rw [if_neg (by omega), if_pos (by omega)]
  · rw [if_neg (by omega), if_neg (by omega)]

/-- C5: the duePosts query returns exactly the posts that are unpublished,
due within now + 5 minutes and whose channel binding is active, sorted by
due time ascending. -/
theorem claim_c5_due_posts_query (db : Database) (now : Nat)
    (hs : db.storage_failed = false) :
    (∀ p, p ∈ db.get_posts_to_publish now ↔
      p ∈ db.posts ∧ p.is_published = false ∧ p.scheduled_time ≤ now + 300 ∧
        ∃ u ∈ db.users, u.id = p.user_id ∧
          ∃ c ∈ db.channels, c.channel_id = p.channel_id ∧ c.user_id = u.id ∧
            c.is_active = true) ∧
    List.Sorted postTimeLE (db.get_posts_to_publish now) :=
  ⟨fun _ => mem_get_posts_to_publish hs, sorted_get_posts_to_publish db now⟩

/-- Witness for C5 on the two-post store at now = 0. -/
theorem claim_c5_witness :
    sampleDb2.storage_failed = false ∧
    ((∀ p, p ∈ sampleDb2.get_posts_to_publish 0 ↔
      p ∈ sampleDb2.posts ∧ p.is_published = false ∧ p.scheduled_time ≤ 0 + 300 ∧
        ∃ u ∈ sampleDb2.users, u.id = p.user_id ∧
          ∃ c ∈ sampleDb2.channels, c.channel_id = p.channel_id ∧
            c.user_id = u.id ∧ c.is_active = true) ∧
    List.Sorted postTimeLE (sampleDb2.get_posts_to_publish 0)) :=
  ⟨rfl, claim_c5_due_posts_query sampleDb2 0 rfl⟩

/-- C8 counterexample: a raising store and a healthy empty store give the
same duePosts result - the empty list - so a storage error is reported with
exactly the result value of the normal no-rows case. -/
theorem claim_c8_counterexample :
    sampleDbFail.storage_failed = true ∧
    sampleDbEmpty.storage_failed = false ∧
    sampleDbFail.get_posts_to_publish 100 = [] ∧
    sampleDbEmpty.get_posts_to_publish 100 = [] := by
  decide

/-- C8 amended: Post Store operations swallow storage-I/O failures into
their normal fallback values - `get_posts_to_publish` reports a storage
error as the empty list (indistinguishable from no due posts) and
`get_or_create_user` reports it as None; the failure is only logged, never
surfaced as a distinct condition. -/
theorem claim_c8_amended_storage_errors_swallowed
    (db : Database) (now tid : Nat) (un fn : Option String)
    (hfail : db.storage_failed = true) :
    db.get_posts_to_publish now = [] ∧
    (db.get_or_create_user tid un fn).2 = none := by
  constructor
  · unfold Database.get_posts_to_publish
    rw [hfail]
    rfl
  · unfold Database.get_or_create_user
    rw [hfail]
    rfl

/-- Witness for the amended C8 on the raising sample store. -/
theorem claim_c8_amended_witness :
    sampleDbFail.storage_failed = true ∧
    (sampleDbFail.get_posts_to_publish 100 = [] ∧
      (sampleDbFail.get_or_create_user 100 none none).2 = none) :=
  ⟨rfl, claim_c8_amended_storage_errors_swallowed sampleDbFail 100 100
    none none rfl⟩

/-- C9: a freshly created user gets the free-tier defaults (1 channel,
3 posts per day, not subscribed, no expiry), and granting a tier updates the
subscribed flag, the expiry, the channel limit and the daily-post limit
together in the single row update of `update_user_subscription`. -/
theorem claim_c9_free_tier_defaults_and_atomic_grant
    (db : Database) (tid : Nat) (un fn : Option String) (now : Nat)
    (s : Bool) (days : Nat)
    (hs : db.storage_failed = false) :
    ((∀ u ∈ db.users, u.telegram_id ≠ tid) →
      ∃ u, (db.get_or_create_user tid un fn).2 = some u ∧
        u.channels_limit = 1 ∧ u.posts_per_day_limit = 3 ∧
        u.subscribed = false ∧ u.subscription_until = none) ∧
    (∀ u ∈ (db.update_user_subscription now tid s days).1.users,
      u.telegram_id = tid →
        u.subscribed = s ∧
        u.subscription_until = some (now + days * 86400) ∧
        u.channels_limit = Config.TARIFF_CHANNELS_LIMIT ∧
        u.posts_per_day_limit = Config.TARIFF_POSTS_PER_DAY) := by
  constructor
  · intro habsent
    have hfind : db.users.find? (fun u => u.telegram_id == tid) = none := by
      rw [List.find?_eq_none]
      intro u hu
      simp [habsent u hu]
    unfold Database.get_or_create_user
    rw [hs]
    simp only [Bool.false_eq_true, if_false, hfind]
    exact ⟨_, rfl, rfl, rfl, rfl, rfl⟩
  · intro u hu htid
    unfold Database.update_user_subscription at hu
    rw [hs] at hu
    simp only [Bool.false_eq_true, if_false] at hu
    obtain ⟨v, hv, hfv⟩ := List.mem_map.mp hu
    by_cases hcase : v.telegram_id = tid
    · rw [← hfv, if_pos (by simp [hcase])]
      exact ⟨rfl, rfl, rfl, rfl⟩
    · rw [← hfv, if_neg (by simp [hcase])] at htid
      exact absurd htid hcase

/-- Witness for C9: granting the tier to telegram id 100 on the sample
store at now = 1000 for 30 days. -/
theorem claim_c9_witness :
    sampleDb.storage_failed = false ∧
    (((∀ u ∈ sampleDb.users, u.telegram_id ≠ 100) →
      ∃ u, (sampleDb.get_or_create_user 100 none none).2 = some u ∧
        u.channels_limit = 1 ∧ u.posts_per_day_limit = 3 ∧
        u.subscribed = false ∧ u.subscription_until = none) ∧
    (∀ u ∈ (sampleDb.update_user_subscription 1000 100 true 30).1.users,
      u.telegram_id = 100 →
        u.subscribed = true ∧
        u.subscription_until = some (1000 + 30 * 86400) ∧
        u.channels_limit = Config.TARIFF_CHANNELS_LIMIT ∧
        u.posts_per_day_limit = Config.TARIFF_POSTS_PER_DAY)) :=
  ⟨rfl, claim_c9_free_tier_defaults_and_atomic_grant sampleDb 100 none none
    1000 true 30 rfl⟩

/-- C10: every post accepted by the time-entry handler is scheduled on the
same UTC calendar day as the moment of creation - the handler parses only a
clock time and combines it with the current UTC date, so no accepted input
can ever land on a later day. -/
theorem claim_c10_same_utc_day
    (now_day now_sec hh mm d s : Nat)
    (h : process_post_time now_day now_sec hh mm = some (d, s)) :
    d = now_day := by
  unfold process_post_time at h
  by_cases hp : (hh < 24 && mm < 60) = true
  · rw [if_pos hp] at h
    dsimp only at h
    rcases hv : validate_scheduled_time (now_day * 86400 + now_sec)
        (now_day * 86400 + (hh * 3600 + mm * 60)) with _ | _ | _ <;>
      rw [hv] at h
    · exact absurd h (by simp)
    · exact absurd h (by simp)
    · have h2 := Option.some.inj h
      exact (congrArg Prod.fst h2).symm
  · rw [if_neg hp] at h
    exact absurd h (by simp)

/-- Witness for C10: entering 12:30 at second 0 of day 100 schedules the
post on day 100. -/
theorem claim_c10_witness :
    process_post_time 100 0 12 30 = some (100, 45000) ∧ 100 = 100 :=
  ⟨by decide, claim_c10_same_utc_day 100 0 12 30 100 45000 (by decide)⟩

/-- C6: restart recovery.  Given unpublished posts with future due times and
pairwise-distinct ids (each with its user and channel rows present), the
startup rebuild arms exactly one one-shot timer per post, keyed by post id
at its due time; advancing the clock through the armed due times (the
timers fire in run-date order, each invoking the Delivery Executor) then
delivers all N posts exactly once - N outbound sends - and leaves every
post published.  The store read order is the order of `w.db.posts`, which
is universally quantified, so the result holds for any read order. -/
theorem claim_c6_restart_recovery
    (tr : Transport) (w : World) (now : Nat)
    (hs : w.db.storage_failed = false)
    (hsend : tr.send_ok = true)
    (hnodup : (w.db.posts.map ScheduledPost.id).Nodup)
    (hall : ∀ p ∈ w.db.posts, p.is_published = false ∧
      now < p.scheduled_time ∧ hasBinding w.db p) :
    rebuild_jobs w.db now
      = w.db.posts.map (fun p => Job.mk p.id p.scheduled_time) ∧
    (fire_all tr w (rebuild_jobs w.db now)).sent.length
      = w.sent.length + w.db.posts.length ∧
    (∀ q ∈ (fire_all tr w (rebuild_jobs w.db now)).db.posts,
      q.is_published = true) := by
  have hreb := rebuild_eq_map hnodup
    (fun p hp => ⟨(hall p hp).1, (hall p hp).2.1⟩)
  have hperm : List.Perm
      (List.insertionSort (fun a b => a.run_date ≤ b.run_date)
        (rebuild_jobs w.db now))
      (rebuild_jobs w.db now) :=
    List.perm_insertionSort _ _
  have hids : (rebuild_jobs w.db now).map Job.id
      = w.db.posts.map ScheduledPost.id := by
    rw [hreb, List.map_map]
    rfl
  have hsortnodup : ((List.insertionSort (fun a b => a.run_date ≤ b.run_date)
      (rebuild_jobs w.db now)).map Job.id).Nodup :=
    ((hperm.map Job.id).nodup_iff).mpr (by rw [hids]; exact hnodup)
  have hjobs : ∀ j ∈ List.insertionSort (fun a b => a.run_date ≤ b.run_date)
      (rebuild_jobs w.db now),
      ∃ p ∈ w.db.posts, p.id = j.id ∧ p.is_published = false ∧
        hasBinding w.db p := by
    intro j hj
    have hj2 : j ∈ rebuild_jobs w.db now := hperm.mem_iff.mp hj
    rw [hreb] at hj2
    obtain ⟨p, hp, hpj⟩ := List.mem_map.mp hj2
    exact ⟨p, hp, by rw [← hpj], (hall p hp).1, (hall p hp).2.2⟩
  obtain ⟨hsent, _, _, _, hidmap, hpub⟩ :=
    runJobs_delivers tr
      (List.insertionSort (fun a b => a.run_date ≤ b.run_date)
        (rebuild_jobs w.db now)) w hs hsend hsortnodup hjobs
  have hfire : fire_all tr w (rebuild_jobs w.db now)
      = runJobs tr w (List.insertionSort (fun a b => a.run_date ≤ b.run_date)
          (rebuild_jobs w.db now)) := rfl
  refine ⟨hreb, ?_, ?_⟩
  · rw [hfire, hsent, hperm.length_eq, hreb, List.length_map]
  · intro q hq
    rw [hfire] at hq
    refine hpub q hq ?_
    have hqid : q.id ∈ (runJobs tr w
        (List.insertionSort (fun a b => a.run_date ≤ b.run_date)
          (rebuild_jobs w.db now))).db.posts.map ScheduledPost.id :=
      List.mem_map_of_mem ScheduledPost.id hq
    rw [hidmap, ← hids] at hqid
    exact ((hperm.map Job.id).mem_iff).mpr hqid

/-- Witness for C6: two unpublished posts (ids 7 and 8, due at 50 and 80)
rebuilt and fired from now = 10. -/
theorem claim_c6_witness :
    sampleWorld2.db.storage_failed = false ∧
    sampleTransport.send_ok = true ∧
    (sampleWorld2.db.posts.map ScheduledPost.id).Nodup ∧
    (∀ p ∈ sampleWorld2.db.posts, p.is_published = false ∧
      10 < p.scheduled_time ∧ hasBinding sampleWorld2.db p) ∧
    (rebuild_jobs sampleWorld2.db 10
      = sampleWorld2.db.posts.map (fun p => Job.mk p.id p.scheduled_time) ∧
    (fire_all sampleTransport sampleWorld2
        (rebuild_jobs sampleWorld2.db 10)).sent.length
      = sampleWorld2.sent.length + sampleWorld2.db.posts.length ∧
    (∀ q ∈ (fire_all sampleTransport sampleWorld2
        (rebuild_jobs sampleWorld2.db 10)).db.posts, q.is_published = true)) :=
  ⟨rfl, rfl, by decide, by decide,
    claim_c6_restart_recovery sampleTransport sampleWorld2 10 rfl rfl
      (by decide) (by decide)⟩
